import Mathlib

/-!
Verification development for the language-selection and translation pipeline
of the AI-Agent repository (`functions/language_handler.py` together with
`functions/translation_utils.py` and the agent entry point of
`functions/bedrock_utils.py`).

The Python code is shallowly embedded as executable Lean definitions.
External collaborators (the Firestore document store, the Google Translate
client and the Bedrock agent) are modelled as oracles carried in explicit
environment records; an external call that raises an exception in Python is
modelled by the oracle returning `none` (or `Except.error`), and the
surrounding Python `try`/`except` logic is embedded explicitly.  State
written through the document store is passed explicitly, and the translation
and agent calls performed by the workflow are recorded in an event trace so
that call ordering can be stated.
-/

namespace AIAgent

/- ### Models of the Python string primitives used by the source

The Python built-ins `str.lower`, `str.strip`, `str.startswith` and
`str.replace` do not have kernel-reducing counterparts in core Lean, so they
are modelled here by structurally recursive functions on `List Char`.
`Char.toLower`/`Char.isWhitespace` agree with Python on the ASCII range,
which covers every string these operations are applied to in the source
(payload prefixes and the fixed language-name map). -/

/-- `beginsWith l pre` : does the character list `l` start with `pre`?
Model of Python `str.startswith`. -/
def beginsWith : List Char → List Char → Bool
  | _, [] => true
  | [], _ :: _ => false
  | c :: cs, p :: ps => c == p && beginsWith cs ps

/-- One step of Python `str.replace` scanning: leftmost, non-overlapping.
`fuel` bounds the recursion by the length of the scanned list; every step
consumes at least one character and one unit of fuel, so with initial fuel
`l.length` the fuel is never exhausted.  `pat` is nonempty at every call
site. -/
def replaceLoop (pat rep : List Char) : Nat → List Char → List Char
  | 0, l => l
  | _ + 1, [] => []
  | fuel + 1, c :: rest =>
    if beginsWith (c :: rest) pat then
      rep ++ replaceLoop pat rep fuel (rest.drop (pat.length - 1))
    else
      c :: replaceLoop pat rep fuel rest

/-- Model of Python `str.replace s pat rep`: replaces every non-overlapping
occurrence of `pat` in `s`, scanning left to right.  The source only ever
calls it with the nonempty patterns `"LANG_"` and `"lang_"`; the empty
pattern is guarded out. -/
def pyReplace (s pat rep : String) : String :=
  if pat.data.isEmpty then s
  else ⟨replaceLoop pat.data rep.data s.data.length s.data⟩

/-- Model of Python `str.startswith`. -/
def pyStartsWith (s pre : String) : Bool :=
  beginsWith s.data pre.data

/-- Model of Python `str.lower` (ASCII case mapping). -/
def pyLower (s : String) : String :=
  ⟨s.data.map Char.toLower⟩

/-- Model of Python `str.strip`: remove leading and trailing whitespace. -/
def pyStrip (s : String) : String :=
  ⟨(((s.data.dropWhile Char.isWhitespace).reverse.dropWhile
      Char.isWhitespace).reverse)⟩

/-- Python truthiness of an optional string (`if x:`): `None` and the empty
string are falsy. -/
def strTruthy : Option String → Bool
  | none => false
  | some s => s != ""

/- ### Data model -/

/-- A document of the `ss_language_support` Firestore collection, as read by
`get_supported_languages`: a document id and the optional `code`/`name`
fields of its dictionary. -/
structure LangDoc where
  id : String
  code : Option String
  name : Option String
deriving DecidableEq

/-- A supported-language entry (`{'code': ..., 'name': ...}`). -/
structure Lang where
  code : String
  name : String
deriving DecidableEq

/-- The per-user profile document, restricted to the single field this core
reads and writes (`preferred_language`; `none` models an absent field). -/
structure UserDoc where
  preferred_language : Option String
deriving DecidableEq

/-- The Firestore document store as seen by the core, together with the
failure behaviour of its operations.
* `langRead` — the outcome of `db.collection('ss_language_support').stream()`:
  `none` models the read raising, `some docs` the streamed documents.
* `userReadFails` — whether the per-user document `get` raises.
* `userDocs` — the user-details document for each `(platform, user_id)`
  (`none` models an absent document).
* `setFails` — whether the per-user document `set` raises. -/
structure Firestore where
  langRead : Option (List LangDoc)
  userReadFails : Bool
  userDocs : String → String → Option UserDoc
  setFails : Bool

/-- The Google Translate client as seen by `translation_utils`.
* `clientInit` — whether `translate.Client()` succeeded at import time.
* `translateCall text target source` — the outcome of
  `translate_client.translate(...)['translatedText']`; `none` models the
  call (or the dictionary access) raising.
* `detectCall text` — the outcome of
  `translate_client.detect_language(text)['language']`; `none` models it
  raising. -/
structure TranslateEnv where
  clientInit : Bool
  translateCall : String → String → Option String → Option String
  detectCall : String → Option String

/-- An external call made by the workflow, for stating call ordering. -/
inductive CallEvent where
  | translate (text target_language : String) (source_language : Option String)
  | agentInvoke (message session_id : String)
deriving DecidableEq

/-- A quick reply entry `{"title": ..., "payload": ...}`. -/
structure QuickReply where
  title : String
  payload : String
deriving DecidableEq

/-- A WhatsApp button entry `{"id": ..., "title": ...}`. -/
structure Button where
  id : String
  title : String
deriving DecidableEq

/-- The dictionary returned by `process_message_with_translation`:
`{'response': ..., 'quick_replies': ..., 'buttons': ...}`. -/
structure Response where
  response : String
  quick_replies : Option (List QuickReply)
  buttons : Option (List Button)
deriving DecidableEq

/- ### translation_utils.py -/

/-- The hard-coded default language list of `get_supported_languages`. -/
def defaultLanguages : List Lang :=
  [⟨"en", "English"⟩, ⟨"ta", "Tamil"⟩, ⟨"ml", "Malayalam"⟩]

/-- `get_supported_languages` (translation_utils.py, lines 24–68): stream the
`ss_language_support` collection, mapping each document to
`{'code': lang_data.get('code', doc.id), 'name': lang_data.get('name', doc.id)}`;
fall back to the three defaults when the list is empty or the read raises. -/
def get_supported_languages (db : Firestore) : List Lang :=
  match db.langRead with
  | none => defaultLanguages
  | some docs =>
    let languages := docs.map fun d => ⟨d.code.getD d.id, d.name.getD d.id⟩
    if languages.isEmpty then defaultLanguages else languages

/-- `detect_language` (translation_utils.py, lines 109–129): `'en'` when the
client is missing or the detect call raises, else the detected code. -/
def detect_language (tr : TranslateEnv) (text : String) : String :=
  if !tr.clientInit then "en"
  else
    match tr.detectCall text with
    | some language_code => language_code
    | none => "en"

/-- `translate_text` (translation_utils.py, lines 71–106): echo the input when
the client is missing; skip the remote call when the target is English, no
source is supplied and detection already says English; echo the input when
the translate call raises. -/
def translate_text (tr : TranslateEnv) (text : String)
    (target_language : String) (source_language : Option String) : String :=
  if !tr.clientInit then text
  else if target_language == "en" && !(strTruthy source_language)
      && detect_language tr text == "en" then text
  else
    match tr.translateCall text target_language source_language with
    | some translated_text => translated_text
    | none => text

/-- `get_user_language` (translation_utils.py, lines 132–155): `none` when the
read raises, the document is absent, or the field is absent. -/
def get_user_language (db : Firestore) (platform user_id : String) :
    Option String :=
  if db.userReadFails then none
  else
    match db.userDocs platform user_id with
    | some user_data => user_data.preferred_language
    | none => none

/-- `set_user_language` (translation_utils.py, lines 158–181): merge-upsert
`preferred_language` into the user document; report failure as `false`
without raising, leaving the store unchanged. -/
def set_user_language (db : Firestore) (platform user_id language_code : String) :
    Bool × Firestore :=
  if db.setFails then (false, db)
  else
    (true,
     { db with
       userDocs := fun p u =>
         if p == platform && u == user_id then some ⟨some language_code⟩
         else db.userDocs p u })

/-- `is_language_supported` (translation_utils.py, lines 184–197): membership
of the code in the current directory snapshot's code list. -/
def is_language_supported (db : Firestore) (language_code : String) : Bool :=
  ((get_supported_languages db).map (·.code)).contains language_code

/- ### language_handler.py -/

/-- The fixed multi-language greeting of `create_language_selection_prompt`. -/
def prompt_text : String :=
  "Welcome! 🌍\n\nWhat\x27s your preferred language?\nஉங்கள் விருப்ப மொழி என்ன?\nനിങ്ങളുടെ ഇഷ്ടമുള്ള ഭാഷ എന്താണ്?"

/-- `create_language_selection_prompt` (language_handler.py, lines 22–54):
the greeting, one quick reply per directory entry, and WhatsApp buttons
truncated to the first three entries. -/
def create_language_selection_prompt (db : Firestore) :
    String × List QuickReply × List Button :=
  let supported_languages := get_supported_languages db
  (prompt_text,
   supported_languages.map fun lang => ⟨lang.name, "LANG_" ++ lang.code⟩,
   (supported_languages.take 3).map fun lang => ⟨"lang_" ++ lang.code, lang.name⟩)

/-- The fixed free-text dictionary of `is_language_selection_response`
(language_handler.py, lines 77–84), looked up with `dict.get`. -/
def language_map : String → Option String
  | "english" => some "en"
  | "tamil" => some "ta"
  | "malayalam" => some "ml"
  | "en" => some "en"
  | "ta" => some "ta"
  | "ml" => some "ml"
  | _ => none

/-- `is_language_selection_response` (language_handler.py, lines 57–86): a
truthy payload beginning with `LANG_` (else `lang_`) yields
`payload.replace(pre, "")`; otherwise look up the lowered and stripped
message text in the fixed map. -/
def is_language_selection_response (message_text : String)
    (payload : Option String) : Option String :=
  match payload with
  | some p =>
    if p != "" then
      if pyStartsWith p "LANG_" then some (pyReplace p "LANG_" "")
      else if pyStartsWith p "lang_" then some (pyReplace p "lang_" "")
      else language_map (pyStrip (pyLower message_text))
    else language_map (pyStrip (pyLower message_text))
  | none => language_map (pyStrip (pyLower message_text))

/-- The English confirmation string (language_handler.py, line 132), also the
fallback of `confirmations.get`. -/
def english_confirmation : String :=
  "✅ Language set to English! How can I help you today?"

/-- The fixed confirmation dictionary (language_handler.py, lines 131–135). -/
def confirmations : String → Option String
  | "en" => some english_confirmation
  | "ta" => some "✅ மொழி தமிழ் என அமைக்கப்பட்டது! இன்று நான் உங்களுக்கு எப்படி உதவ முடியும்?"
  | "ml" => some "✅ ഭാഷ മലയാളം ആയി സജ്ജമാക്കി! ഇന്ന് ഞാൻ നിങ്ങളെ എങ്ങനെ സഹായിക്കും?"
  | _ => none

/-- The English fallback error string (language_handler.py, line 182). -/
def english_error : String :=
  "❌ Sorry, I encountered an error. Please try again."

/-- The fixed error dictionary (language_handler.py, lines 181–185). -/
def error_messages : String → Option String
  | "en" => some english_error
  | "ta" => some "❌ மன்னிக்கவும், ஒரு பிழை ஏற்பட்டது. மீண்டும் முயற்சிக்கவும்."
  | "ml" => some "❌ ക്ഷമിക്കണം, എനിക്ക് ഒരു പിശക് നേരിട്ടു. വീണ്ടും ശ്രമിക്കുക."
  | _ => none

/-- Case 1 of `process_message_with_translation` (language_handler.py,
lines 122–149), taken when the stored preference is falsy: persist and
confirm a truthy supported selection, otherwise show the selection prompt.
The `bool` success result of `set_user_language` is discarded, exactly as in
the source. -/
def awaiting_branch (db : Firestore) (platform user_id message_text : String)
    (payload : Option String) : Response × Firestore × List CallEvent :=
  match is_language_selection_response message_text payload with
  | some selected_lang =>
    if selected_lang != "" && is_language_supported db selected_lang then
      let set_result := set_user_language db platform user_id selected_lang
      (⟨(confirmations selected_lang).getD english_confirmation, none, none⟩,
       set_result.2, [])
    else
      let prompt := create_language_selection_prompt db
      (⟨prompt.1, some prompt.2.1, some prompt.2.2⟩, db, [])
  | none =>
    let prompt := create_language_selection_prompt db
    (⟨prompt.1, some prompt.2.1, some prompt.2.2⟩, db, [])

/-- Case 2 of `process_message_with_translation` (language_handler.py,
lines 151–191), taken when the stored preference `user_language` is truthy.
`agent` is the oracle for `invoke_bedrock_agent` (bedrock_utils.py,
lines 58–113): `Except.error` models it raising (missing configuration or a
failing invocation), `Except.ok r` models it returning a dictionary whose
`'response'` entry is `r`.  Inside the `try` block only the agent call can
raise — `translate_text` catches all of its own failures — so the `except`
branch is reached exactly when the agent raises. -/
def active_branch (tr : TranslateEnv)
    (agent : String → String → Except Unit String) (db : Firestore)
    (user_id message_text user_language : String) :
    Response × Firestore × List CallEvent :=
  let step1 :=
    if user_language != "en" then
      (translate_text tr message_text "en" (some user_language),
       [CallEvent.translate message_text "en" (some user_language)])
    else (message_text, [])
  let english_message := step1.1
  match agent english_message user_id with
  | Except.error _ =>
    (⟨(error_messages user_language).getD english_error, none, none⟩, db,
     step1.2 ++ [CallEvent.agentInvoke english_message user_id])
  | Except.ok english_response =>
    let step3 :=
      if user_language != "en" then
        (translate_text tr english_response user_language (some "en"),
         [CallEvent.translate english_response user_language (some "en")])
      else (english_response, [])
    (⟨step3.1, none, none⟩, db,
     step1.2 ++ [CallEvent.agentInvoke english_message user_id] ++ step3.2)

/-- `process_message_with_translation` (language_handler.py, lines 89–191),
the `handleMessage` entry point: read the stored preference; a falsy value
(`None` or `""`, Python `if not user_language:`) takes the
language-selection case, a truthy value takes the translate–invoke–translate
case.  Returns the response dictionary, the resulting store and the trace of
translation/agent calls made. -/
def process_message_with_translation (db : Firestore) (tr : TranslateEnv)
    (agent : String → String → Except Unit String)
    (platform user_id message_text : String) (payload : Option String) :
    Response × Firestore × List CallEvent :=
  match get_user_language db platform user_id with
  | some user_language =>
    if user_language != "" then
      active_branch tr agent db user_id message_text user_language
    else awaiting_branch db platform user_id message_text payload
  | none => awaiting_branch db platform user_id message_text payload

/-- Rendering of the sentence of the spec the parser claim uses, for
comparison with the source behaviour: the remainder obtained by stripping
only the leading prefix `pre` from `s`. -/
def spec_strip_leading (s pre : String) : String :=
  ⟨s.data.drop pre.data.length⟩

/- ### Routing and branch lemmas (shared helpers) -/

/-- A falsy stored preference routes `process_message_with_translation` to
the language-selection case. -/
theorem process_awaiting (db : Firestore) (tr : TranslateEnv)
    (agent : String → String → Except Unit String)
    (platform user_id message_text : String) (payload : Option String)
    (h : strTruthy (get_user_language db platform user_id) = false) :
    process_message_with_translation db tr agent platform user_id message_text payload
      = awaiting_branch db platform user_id message_text payload := by
  unfold process_message_with_translation
  cases hu : get_user_language db platform user_id with
  | none => rfl
  | some s =>
    rw [hu] at h
    have hs : s = "" := by simpa [strTruthy] using h
    simp [hs]

/-- A truthy stored preference routes `process_message_with_translation` to
the translate–invoke–translate case. -/
theorem process_active (db : Firestore) (tr : TranslateEnv)
    (agent : String → String → Except Unit String)
    (platform user_id message_text : String) (payload : Option String)
    (c : String) (h : get_user_language db platform user_id = some c)
    (hc : c ≠ "") :
    process_message_with_translation db tr agent platform user_id message_text payload
      = active_branch tr agent db user_id message_text c := by
  unfold process_message_with_translation
  rw [h]
  simp [hc]

/-- A truthy, supported selection takes the confirmation branch of the
language-selection case. -/
theorem awaiting_confirm (db : Firestore)
    (platform user_id message_text : String) (payload : Option String)
    (c : String)
    (hsel : is_language_selection_response message_text payload = some c)
    (hc : c ≠ "") (hsupp : is_language_supported db c = true) :
    awaiting_branch db platform user_id message_text payload
      = (⟨(confirmations c).getD english_confirmation, none, none⟩,
         (set_user_language db platform user_id c).2, []) := by
  unfold awaiting_branch
  rw [hsel]
  simp [hc, hsupp]

/-- Without a truthy, supported selection, the language-selection case shows
the selection prompt and leaves the store untouched. -/
theorem awaiting_prompt (db : Firestore)
    (platform user_id message_text : String) (payload : Option String)
    (h : ∀ c, is_language_selection_response message_text payload = some c →
        c = "" ∨ is_language_supported db c = false) :
    awaiting_branch db platform user_id message_text payload
      = (⟨prompt_text,
          some ((get_supported_languages db).map
            fun lang => ⟨lang.name, "LANG_" ++ lang.code⟩),
          some (((get_supported_languages db).take 3).map
            fun lang => ⟨"lang_" ++ lang.code, lang.name⟩)⟩,
         db, []) := by
  unfold awaiting_branch
  cases hsel : is_language_selection_response message_text payload with
  | none => simp [create_language_selection_prompt]
  | some c =>
    rcases h c hsel with hc | hsupp
    · subst hc
      simp [create_language_selection_prompt]
    · simp [hsupp, create_language_selection_prompt]

/-- The translate–invoke–translate case never writes to the store. -/
theorem active_branch_db (tr : TranslateEnv)
    (agent : String → String → Except Unit String) (db : Firestore)
    (user_id message_text user_language : String) :
    (active_branch tr agent db user_id message_text user_language).2.1 = db := by
  unfold active_branch
  dsimp only
  split <;> rfl

/-- A successful merge-upsert is observed by the very next preference read. -/
theorem get_user_language_after_set (db : Firestore)
    (platform user_id code : String) (hset : db.setFails = false)
    (hread : db.userReadFails = false) :
    get_user_language (set_user_language db platform user_id code).2
        platform user_id = some code := by
  simp [set_user_language, get_user_language, hset, hread]

/-- State analysis of the language-selection case: either the store is
untouched, or a truthy supported selection was merged in. -/
theorem awaiting_branch_state (db : Firestore)
    (platform user_id message_text : String) (payload : Option String) :
    (awaiting_branch db platform user_id message_text payload).2.1 = db ∨
    ∃ c, is_language_selection_response message_text payload = some c ∧
      c ≠ "" ∧ is_language_supported db c = true ∧
      (awaiting_branch db platform user_id message_text payload).2.1
        = (set_user_language db platform user_id c).2 := by
  unfold awaiting_branch
  cases hsel : is_language_selection_response message_text payload with
  | none => left; rfl
  | some c =>
    by_cases hcond : (c != "" && is_language_supported db c) = true
    · rw [Bool.and_eq_true, bne_iff_ne] at hcond
      right
      exact ⟨c, rfl, hcond.1, hcond.2, by simp [hcond.1, hcond.2]⟩
    · left
      rw [Bool.not_eq_true] at hcond
      simp [hcond]

/- ### Claim theorems -/

/-- C4 counterexample: the claim says a payload beginning with `LANG_` yields
the remainder obtained by stripping only that leading prefix, but on the
payload `"LANG_LANG_ta"` the parser returns `"ta"` (Python `str.replace`
removes every occurrence), not the leading-strip remainder `"LANG_ta"`. -/
theorem payload_strip_claim_counterexample :
    pyStartsWith "LANG_LANG_ta" "LANG_" = true ∧
    is_language_selection_response "" (some "LANG_LANG_ta") = some "ta" ∧
    spec_strip_leading "LANG_LANG_ta" "LANG_" = "LANG_ta" ∧
    ¬ (is_language_selection_response "" (some "LANG_LANG_ta")
        = some (spec_strip_leading "LANG_LANG_ta" "LANG_")) := by
  decide

/-- C4 (amended): for every payload beginning with `LANG_` (else `lang_`),
the parser returns the payload with every non-overlapping occurrence of that
prefix removed — which coincides with stripping only the leading prefix
whenever the prefix does not occur again — verbatim, without consulting the
directory, and regardless of the message text. -/
theorem payload_selection_replaces_every_occurrence
    (message_text p : String) :
    (pyStartsWith p "LANG_" = true →
      is_language_selection_response message_text (some p)
        = some (pyReplace p "LANG_" "")) ∧
    (pyStartsWith p "LANG_" = false → pyStartsWith p "lang_" = true →
      is_language_selection_response message_text (some p)
        = some (pyReplace p "lang_" "")) := by
  constructor
  · intro h
    have hp : p ≠ "" := by
      intro hp
      subst hp
      exact absurd h (by decide)
    unfold is_language_selection_response
    simp [hp, h]
  · intro h1 h2
    have hp : p ≠ "" := by
      intro hp
      subst hp
      exact absurd h2 (by decide)
    unfold is_language_selection_response
    simp [hp, h1, h2]

/-- C4 witness: the amended claim evaluated on the payload `"lang_ml"`. -/
theorem payload_selection_replaces_every_occurrence_witness :
    is_language_selection_response "whatever" (some "lang_ml") = some "ml" := by
  have h := (payload_selection_replaces_every_occurrence "whatever" "lang_ml").2
    (by decide) (by decide)
  exact h.trans (by decide)

/-- C6: `get_supported_languages` always returns a non-empty list, and when
the backing read raises or streams no documents it returns exactly
English(en), Tamil(ta), Malayalam(ml), in that order. -/
theorem get_supported_languages_total (db : Firestore) :
    get_supported_languages db ≠ [] ∧
    (db.langRead = none →
      get_supported_languages db
        = [⟨"en", "English"⟩, ⟨"ta", "Tamil"⟩, ⟨"ml", "Malayalam"⟩]) ∧
    (db.langRead = some [] →
      get_supported_languages db
        = [⟨"en", "English"⟩, ⟨"ta", "Tamil"⟩, ⟨"ml", "Malayalam"⟩]) := by
  refine ⟨?_, ?_, ?_⟩
  · unfold get_supported_languages
    cases h : db.langRead with
    | none => simp [defaultLanguages]
    | some docs =>
      dsimp only
      split
      · simp [defaultLanguages]
      · next hne =>
        rw [Bool.not_eq_true, List.isEmpty_eq_false] at hne
        exact hne
  · intro h
    simp [get_supported_languages, h, defaultLanguages]
  · intro h
    simp [get_supported_languages, h, defaultLanguages]

/-- C6 witness: the fallback list on a store whose language read raises. -/
theorem get_supported_languages_total_witness :
    get_supported_languages
        ⟨none, false, fun _ _ => none, false⟩
      = [⟨"en", "English"⟩, ⟨"ta", "Tamil"⟩, ⟨"ml", "Malayalam"⟩] ∧
    get_supported_languages ⟨none, false, fun _ _ => none, false⟩ ≠ [] := by
  have h := get_supported_languages_total ⟨none, false, fun _ _ => none, false⟩
  exact ⟨h.2.1 rfl, h.1⟩

/-- C7: `translate_text` is a total function of its inputs (it cannot raise),
and when the Google Translate client failed to initialise, or the underlying
translate call raises, it returns the input text unchanged. -/
theorem translate_text_fail_open (tr : TranslateEnv)
    (text target_language : String) (source_language : Option String) :
    (tr.clientInit = false →
      translate_text tr text target_language source_language = text) ∧
    (tr.translateCall text target_language source_language = none →
      translate_text tr text target_language source_language = text) := by
  constructor
  · intro h
    simp [translate_text, h]
  · intro h
    unfold translate_text
    split
    · rfl
    · split
      · rfl
      · rw [h]

/-- C7 witness: a dead client and a raising translate call both echo. -/
theorem translate_text_fail_open_witness :
    translate_text ⟨false, fun _ _ _ => none, fun _ => none⟩ "hola" "en" none
      = "hola" ∧
    translate_text ⟨true, fun _ _ _ => none, fun t => some t⟩
        "வணக்கம்" "en" (some "ta")
      = "வணக்கம்" := by
  exact ⟨(translate_text_fail_open ⟨false, fun _ _ _ => none, fun _ => none⟩
            "hola" "en" none).1 rfl,
         (translate_text_fail_open ⟨true, fun _ _ _ => none, fun t => some t⟩
            "வணக்கம்" "en" (some "ta")).2 rfl⟩

/-- C8: with an absent or non-prefixed payload, the parser resolves the
lowered, stripped message text through the fixed name/code map; free text
`"Malayalam"` in any letter case with surrounding whitespace resolves to
`ml`, the same code a `LANG_ml` payload yields. -/
theorem free_text_selection_map (message_text : String)
    (payload : Option String)
    (hp : ∀ p, payload = some p →
        pyStartsWith p "LANG_" = false ∧ pyStartsWith p "lang_" = false) :
    is_language_selection_response message_text payload
      = language_map (pyStrip (pyLower message_text)) ∧
    is_language_selection_response "  Malayalam  " none = some "ml" ∧
    is_language_selection_response " MALAYALAM " none = some "ml" ∧
    is_language_selection_response "x" (some "LANG_ml") = some "ml" := by
  refine ⟨?_, by decide, by decide, by decide⟩
  cases payload with
  | none => rfl
  | some p =>
    obtain ⟨h1, h2⟩ := hp p rfl
    unfold is_language_selection_response
    by_cases hpe : p = ""
    · subst hpe
      simp
    · simp [hpe, h1, h2]

/-- C8 witness: the map equation evaluated at free text `" Tamil "`. -/
theorem free_text_selection_map_witness :
    is_language_selection_response " Tamil " none = some "ta" := by
  have h := (free_text_selection_map " Tamil " none (by intro p hp; cases hp)).1
  exact h.trans (by decide)

/- ### Concrete environments used by the witnesses -/

/-- A store with an empty language collection (so the fallback directory
applies), no user document, and healthy reads/writes. -/
def dbFresh : Firestore :=
  { langRead := some [], userReadFails := false,
    userDocs := fun _ _ => none, setFails := false }

/-- `dbFresh` with a failing user-document write. -/
def dbFreshSetFails : Firestore :=
  { dbFresh with setFails := true }

/-- A healthy store whose every user document has preference `ta`. -/
def dbTa : Firestore :=
  { langRead := some [], userReadFails := false,
    userDocs := fun _ _ => some ⟨some "ta"⟩, setFails := false }

/-- A healthy store whose every user document has preference `en`. -/
def dbEn : Firestore :=
  { langRead := some [], userReadFails := false,
    userDocs := fun _ _ => some ⟨some "en"⟩, setFails := false }

/-- A translate environment whose client failed to initialise. -/
def trDead : TranslateEnv :=
  { clientInit := false, translateCall := fun _ _ _ => none,
    detectCall := fun _ => none }

/-- An agent oracle that always raises. -/
def agentFail : String → String → Except Unit String :=
  fun _ _ => Except.error ()

/-- An agent oracle that echoes its input message. -/
def agentEcho : String → String → Except Unit String :=
  fun m _ => Except.ok m

/-- C1: with a stored (truthy) preference, when the agent invocation raises,
`process_message_with_translation` converts the failure into a descriptor
whose text is the error string localized to the stored preference (falling
back to the English error string when none exists) and leaves the store
untouched.  No exception can escape `process_message_with_translation`: it
is a total function into `Response × Firestore × List CallEvent`, and every
raising collaborator call is dispatched on explicitly. -/
theorem handle_message_agent_failure (db : Firestore) (tr : TranslateEnv)
    (agent : String → String → Except Unit String)
    (platform user_id message_text : String) (payload : Option String)
    (c : String) (hpref : get_user_language db platform user_id = some c)
    (hc : c ≠ "") (hfail : ∀ m s, agent m s = Except.error ()) :
    (process_message_with_translation db tr agent platform user_id
        message_text payload).1.response
      = (error_messages c).getD english_error ∧
    (process_message_with_translation db tr agent platform user_id
        message_text payload).2.1 = db := by
  rw [process_active db tr agent platform user_id message_text payload c
    hpref hc]
  refine ⟨?_, active_branch_db tr agent db user_id message_text c⟩
  unfold active_branch
  simp [hfail]

/-- C1 witness: a `ta` user whose agent invocation raises receives exactly
the fixed Tamil error string. -/
theorem handle_message_agent_failure_witness :
    (process_message_with_translation dbTa trDead agentFail "facebook" "u1"
        "வணக்கம்" none).1.response
      = "❌ மன்னிக்கவும், ஒரு பிழை ஏற்பட்டது. மீண்டும் முயற்சிக்கவும்." := by
  have h := handle_message_agent_failure dbTa trDead agentFail "facebook"
    "u1" "வணக்கம்" none "ta" rfl (by decide) (fun m s => rfl)
  exact h.1.trans (by decide)

/-- C2: with a stored preference of `en` the workflow makes no translation
calls and hands the raw text to the agent, returning its reply unmodified;
with any other (truthy) preference it translates to English
(source = preference, target = en), invokes the agent on the English text,
and translates the reply back (source = en, target = preference), in exactly
that order, returning the translated reply.  The store is untouched either
way. -/
theorem active_translation_pipeline (db : Firestore) (tr : TranslateEnv)
    (agent : String → String → Except Unit String)
    (platform user_id message_text : String) (payload : Option String)
    (c : String) (hpref : get_user_language db platform user_id = some c)
    (hc : c ≠ "") :
    (c = "en" → ∀ r, agent message_text user_id = Except.ok r →
      process_message_with_translation db tr agent platform user_id
          message_text payload
        = (⟨r, none, none⟩, db,
           [CallEvent.agentInvoke message_text user_id])) ∧
    (c ≠ "en" → ∀ r,
      agent (translate_text tr message_text "en" (some c)) user_id
        = Except.ok r →
      process_message_with_translation db tr agent platform user_id
          message_text payload
        = (⟨translate_text tr r c (some "en"), none, none⟩, db,
           [CallEvent.translate message_text "en" (some c),
            CallEvent.agentInvoke
              (translate_text tr message_text "en" (some c)) user_id,
            CallEvent.translate r c (some "en")])) := by
  rw [process_active db tr agent platform user_id message_text payload c
    hpref hc]
  constructor
  · rintro rfl r hr
    unfold active_branch
    simp [hr]
  · intro hne r hr
    unfold active_branch
    simp [hne, hr]

/-- C2 witness: an `en` user's raw text reaches an echoing agent and comes
back unmodified, with an empty translation trace. -/
theorem active_translation_pipeline_witness :
    process_message_with_translation dbEn trDead agentEcho "facebook" "u1"
        "hello" none
      = (⟨"hello", none, none⟩, dbEn,
         [CallEvent.agentInvoke "hello" "u1"]) := by
  have h := (active_translation_pipeline dbEn trDead agentEcho "facebook"
    "u1" "hello" none "en" rfl (by decide)).1 rfl "hello" rfl
  exact h

/-- C3: an unset-preference user whose message parses to a truthy, supported
code has that code persisted (given a healthy store), receives the
confirmation string keyed by the code (falling back to the English
confirmation), and every subsequent call reads the preference back and runs
the ACTIVE branch. -/
theorem selection_persists_and_confirms (db : Firestore) (tr : TranslateEnv)
    (agent : String → String → Except Unit String)
    (platform user_id message_text : String) (payload : Option String)
    (c : String)
    (hpref : strTruthy (get_user_language db platform user_id) = false)
    (hsel : is_language_selection_response message_text payload = some c)
    (hc : c ≠ "") (hsupp : is_language_supported db c = true)
    (hset : db.setFails = false) (hread : db.userReadFails = false) :
    (process_message_with_translation db tr agent platform user_id
        message_text payload).1.response
      = (confirmations c).getD english_confirmation ∧
    get_user_language (process_message_with_translation db tr agent platform
        user_id message_text payload).2.1 platform user_id = some c ∧
    strTruthy (get_user_language (process_message_with_translation db tr
        agent platform user_id message_text payload).2.1 platform user_id)
      = true ∧
    (∀ text2 payload2,
      process_message_with_translation
          (process_message_with_translation db tr agent platform user_id
            message_text payload).2.1
          tr agent platform user_id text2 payload2
        = active_branch tr agent
            (process_message_with_translation db tr agent platform user_id
              message_text payload).2.1
            user_id text2 c) := by
  rw [process_awaiting db tr agent platform user_id message_text payload
    hpref]
  rw [awaiting_confirm db platform user_id message_text payload c hsel hc
    hsupp]
  have hg := get_user_language_after_set db platform user_id c hset hread
  refine ⟨rfl, hg, by rw [hg]; simpa [strTruthy] using hc, ?_⟩
  intro text2 payload2
  exact process_active _ tr agent platform user_id text2 payload2 c hg hc

/-- C3 witness: structured payload `"LANG_ta"` on an unset user sets `ta`,
answers with the exact Tamil confirmation, and the preference is durable. -/
theorem selection_persists_and_confirms_witness :
    (process_message_with_translation dbFresh trDead agentFail "facebook"
        "u1" "hi" (some "LANG_ta")).1.response
      = "✅ மொழி தமிழ் என அமைக்கப்பட்டது! இன்று நான் உங்களுக்கு எப்படி உதவ முடியும்?" ∧
    get_user_language (process_message_with_translation dbFresh trDead
        agentFail "facebook" "u1" "hi" (some "LANG_ta")).2.1 "facebook" "u1"
      = some "ta" := by
  have h := selection_persists_and_confirms dbFresh trDead agentFail
    "facebook" "u1" "hi" (some "LANG_ta") "ta" rfl (by decide) (by decide)
    (by decide) rfl rfl
  exact ⟨h.1.trans (by decide), h.2.1⟩

/-- C5: an unset-preference user whose message yields no truthy supported
selection gets the prompt descriptor — the fixed greeting, one quick reply
`{title: name, payload: "LANG_" ++ code}` per directory entry in order, and
buttons `{id: "lang_" ++ code, title: name}` over the first three entries —
and the store is not written. -/
theorem no_selection_shows_prompt (db : Firestore) (tr : TranslateEnv)
    (agent : String → String → Except Unit String)
    (platform user_id message_text : String) (payload : Option String)
    (hpref : strTruthy (get_user_language db platform user_id) = false)
    (hnosel : ∀ c,
      is_language_selection_response message_text payload = some c →
      c = "" ∨ is_language_supported db c = false) :
    process_message_with_translation db tr agent platform user_id
        message_text payload
      = (⟨prompt_text,
          some ((get_supported_languages db).map
            fun lang => ⟨lang.name, "LANG_" ++ lang.code⟩),
          some (((get_supported_languages db).take 3).map
            fun lang => ⟨"lang_" ++ lang.code, lang.name⟩)⟩,
         db, []) := by
  rw [process_awaiting db tr agent platform user_id message_text payload
    hpref]
  exact awaiting_prompt db platform user_id message_text payload hnosel

/-- C5 witness: non-selection text on an unset user yields the full prompt
descriptor over the fallback directory. -/
theorem no_selection_shows_prompt_witness :
    process_message_with_translation dbFresh trDead agentFail "whatsapp"
        "u2" "I need help" none
      = (⟨prompt_text,
          some [⟨"English", "LANG_en"⟩, ⟨"Tamil", "LANG_ta"⟩,
                ⟨"Malayalam", "LANG_ml"⟩],
          some [⟨"lang_en", "English"⟩, ⟨"lang_ta", "Tamil"⟩,
                ⟨"lang_ml", "Malayalam"⟩]⟩,
         dbFresh, []) := by
  have h := no_selection_shows_prompt dbFresh trDead agentFail "whatsapp"
    "u2" "I need help" none rfl ?_
  · exact h.trans rfl
  · intro c hc
    rw [show is_language_selection_response "I need help" none = none from
      by decide] at hc
    cases hc

/-- C9: the AWAITING_LANGUAGE → ACTIVE transition is one-way.  A call that
sees a set (truthy) preference returns the store identically; whenever a
call changes the store at all, the preference was previously unset, the
message carried a truthy supported selection, the write succeeded, and the
stored preference afterwards is exactly the selected code — so no call ever
unsets or alters a set preference. -/
theorem preference_write_discipline (db : Firestore) (tr : TranslateEnv)
    (agent : String → String → Except Unit String)
    (platform user_id message_text : String) (payload : Option String) :
    (strTruthy (get_user_language db platform user_id) = true →
      (process_message_with_translation db tr agent platform user_id
          message_text payload).2.1 = db) ∧
    ((process_message_with_translation db tr agent platform user_id
        message_text payload).2.1 ≠ db →
      strTruthy (get_user_language db platform user_id) = false ∧
      db.setFails = false ∧
      ∃ c, is_language_selection_response message_text payload = some c ∧
        c ≠ "" ∧ is_language_supported db c = true ∧
        (db.userReadFails = false →
          get_user_language (process_message_with_translation db tr agent
              platform user_id message_text payload).2.1 platform user_id
            = some c)) := by
  by_cases hpref : strTruthy (get_user_language db platform user_id) = true
  · obtain ⟨c, hc, hceq⟩ :
        ∃ c, c ≠ "" ∧ get_user_language db platform user_id = some c := by
      cases hu : get_user_language db platform user_id with
      | none => rw [hu] at hpref; exact absurd hpref (by decide)
      | some s =>
        rw [hu] at hpref
        exact ⟨s, by simpa [strTruthy] using hpref, rfl⟩
    have heq : (process_message_with_translation db tr agent platform
        user_id message_text payload).2.1 = db := by
      rw [process_active db tr agent platform user_id message_text payload c
        hceq hc]
      exact active_branch_db tr agent db user_id message_text c
    exact ⟨fun _ => heq, fun hne => absurd heq hne⟩
  · rw [Bool.not_eq_true] at hpref
    rw [process_awaiting db tr agent platform user_id message_text payload
      hpref]
    refine ⟨fun h => absurd h (by simp [hpref]), fun hne => ?_⟩
    rcases awaiting_branch_state db platform user_id message_text payload
      with heq | ⟨c, hsel, hc, hsupp, hstate⟩
    · exact absurd heq hne
    · by_cases hsf : db.setFails = true
      · have hkept : (set_user_language db platform user_id c).2 = db := by
          simp [set_user_language, hsf]
        rw [hkept] at hstate
        exact absurd hstate hne
      · rw [Bool.not_eq_true] at hsf
        refine ⟨hpref, hsf, c, hsel, hc, hsupp, fun hread => ?_⟩
        rw [hstate]
        exact get_user_language_after_set db platform user_id c hsf hread

/-- C9 witness: a user whose preference is already `ta` sends a selection
payload, and the store comes back identical. -/
theorem preference_write_discipline_witness :
    (process_message_with_translation dbTa trDead agentFail "facebook" "u1"
        "english" (some "LANG_ml")).2.1 = dbTa := by
  exact (preference_write_discipline dbTa trDead agentFail "facebook" "u1"
    "english" (some "LANG_ml")).1 (by decide)

/-- C10: when the parser yields a truthy supported code but the preference
write fails (reported as `false`, not raised), the workflow still returns
the success confirmation for that code, the store is unchanged — so the
preference remains unset — and a subsequent non-selection call re-enters the
language-prompt path. -/
theorem set_failure_still_confirms (db : Firestore) (tr : TranslateEnv)
    (agent : String → String → Except Unit String)
    (platform user_id message_text : String) (payload : Option String)
    (c : String)
    (hpref : strTruthy (get_user_language db platform user_id) = false)
    (hsel : is_language_selection_response message_text payload = some c)
    (hc : c ≠ "") (hsupp : is_language_supported db c = true)
    (hfailset : db.setFails = true) :
    (process_message_with_translation db tr agent platform user_id
        message_text payload).1.response
      = (confirmations c).getD english_confirmation ∧
    (process_message_with_translation db tr agent platform user_id
        message_text payload).2.1 = db ∧
    (∀ text2, is_language_selection_response text2 none = none →
      (process_message_with_translation
          (process_message_with_translation db tr agent platform user_id
            message_text payload).2.1
          tr agent platform user_id text2 none).1.response
        = prompt_text) := by
  rw [process_awaiting db tr agent platform user_id message_text payload
    hpref]
  rw [awaiting_confirm db platform user_id message_text payload c hsel hc
    hsupp]
  have hdb : (set_user_language db platform user_id c).2 = db := by
    simp [set_user_language, hfailset]
  dsimp only
  rw [hdb]
  refine ⟨rfl, rfl, ?_⟩
  intro text2 h2
  rw [process_awaiting db tr agent platform user_id text2 none hpref]
  rw [awaiting_prompt db platform user_id text2 none
    (fun c' hc' => by rw [h2] at hc'; cases hc')]

/-- C10 witness: on a store whose writes fail, free text `"tamil"` still
yields the Tamil confirmation, yet the next message gets the prompt again. -/
theorem set_failure_still_confirms_witness :
    (process_message_with_translation dbFreshSetFails trDead agentFail
        "facebook" "u1" "tamil" none).1.response
      = "✅ மொழி தமிழ் என அமைக்கப்பட்டது! இன்று நான் உங்களுக்கு எப்படி உதவ முடியும்?" ∧
    (process_message_with_translation dbFreshSetFails trDead agentFail
        "facebook" "u1" "hello again" none).1.response
      = prompt_text := by
  have h := set_failure_still_confirms dbFreshSetFails trDead agentFail
    "facebook" "u1" "tamil" none "ta" rfl (by decide) (by decide) (by decide)
    rfl
  have h3 := h.2.2 "hello again" (by decide)
  rw [h.2.1] at h3
  exact ⟨h.1.trans (by decide), h3⟩

end AIAgent
